import Mathlib

/-!
# Verification of the Patroni REST API module (`patroni/api.py`)

Shallow embedding of `patroni/api.py`: the status aggregator
(`RestApiHandler.get_postgresql_status`), the default GET status handler
(`RestApiHandler.do_GET`), the authentication guard
(`RestApiServer.check_auth_header` together with the `check_auth`
decorator and `RestApiHandler.send_auth_request`), the control handlers
(`do_POST_restart`, `do_POST_reinitialize`; the latter is named
`do_POST_reinit` here), the request router
(`RestApiHandler.parse_request`) and the query primitive
(`RestApiServer.query`).

Python dicts that are serialized to JSON are embedded as association
lists over a small JSON value type, so that statements about which keys a
response carries are statements about a computed list of keys.  Python
string operations (`in`, `startswith`, slicing, `lstrip`, `split`) are
embedded as character-list operations with the same semantics.
-/

namespace PatroniApi

/-- JSON-ish values, the payloads of the dicts built by `api.py`. -/
inductive JValue where
  | s (v : String)
  | b (v : Bool)
  | null
  | obj (fields : List (String × JValue))

/-- A Python dict serialized to a JSON object: an association list. -/
abbrev JDict := List (String × JValue)

/-- Dict lookup, `d[k]` combined with `k in d`: first binding of `k`. -/
def jlookup (k : String) : JDict → Option JValue
  | [] => none
  | (k2, v) :: rest => if k2 = k then some v else jlookup k rest

/-- The keys of a dict, in order. -/
def jkeys (d : JDict) : List String := d.map Prod.fst

/-- Python `needle in hay` on strings: substring containment. -/
def str_in (needle hay : String) : Bool :=
  hay.data.tails.any (fun t => needle.data.isPrefixOf t)

/-- Python `s.startswith(pre)`. -/
def py_startswith (s pre : String) : Bool :=
  pre.data.isPrefixOf s.data

/-- Python slice `s[n:]`. -/
def py_drop (s : String) (n : Nat) : String :=
  String.mk (s.data.drop n)

/-- One row of the diagnostic query of `get_postgresql_status`
(`SELECT to_char(pg_postmaster_start_time(), ...), pg_is_in_recovery(),
CASE WHEN pg_is_in_recovery() THEN null ELSE pg_current_xlog_location() END,
pg_last_xlog_receive_location(), pg_last_xlog_replay_location(),
pg_is_in_recovery() AND pg_is_xlog_replay_paused()`).  Fields are the
columns `row[0]` .. `row[5]`; nullable columns are `Option`s. -/
structure QueryRow where
  postmaster_start_time : String
  in_recovery : Bool
  current_location : Option String
  received_location : Option String
  replayed_location : Option String
  paused : Bool
deriving DecidableEq

/-- The exceptions that `get_postgresql_status` catches: `psycopg2.Error`
(with an opaque payload identifying the original error),
`PostgresConnectionException` and `RetryFailedError`. -/
inductive QueryError where
  | pg (e : Nat)
  | connection
  | retryFailed
deriving DecidableEq

/-- `RestApiHandler.get_postgresql_status`: on a successful diagnostic
query (the `SELECT` has no `FROM` clause, so it yields exactly one row,
the `row` taken by `self.query(...)[0]`) build the full status dict; when
the query raises one of the three caught exception kinds, log and return
`{'state': ...}` only.  `state` is `self.server.patroni.postgresql.state`. -/
def get_postgresql_status (state : String) (q : Except QueryError QueryRow) : JDict :=
  match q with
  | Except.ok row =>
      [("state", JValue.s state),
       ("postmaster_start_time", JValue.s row.postmaster_start_time),
       ("role", JValue.s (if row.in_recovery then "replica" else "master")),
       ("xlog", JValue.obj
          (if row.in_recovery then
            [("received_location", match row.received_location with
                | some v => JValue.s v
                | none => JValue.null),
             ("replayed_location", match row.replayed_location with
                | some v => JValue.s v
                | none => JValue.null),
             ("paused", JValue.b row.paused)]
          else
            [("location", match row.current_location with
                | some v => JValue.s v
                | none => JValue.null)]))]
  | Except.error _ => [("state", JValue.s state)]

/-- `do_GET` first rewrites the path: `'/master' if self.path == '/' else self.path`. -/
def path_alias (path : String) : String :=
  if path = "/" then "/master" else path

/-- The condition `'role' in response and response['role'] in path` of
`do_GET` (the `role` value is always a string when present). -/
def role_matches (response : JDict) (path : String) : Bool :=
  match jlookup "role" response with
  | some (JValue.s r) => str_in r path
  | _ => false

/-- The status code computed by `RestApiHandler.do_GET` from the request
path, the aggregated status `response`, `patroni.ha.restart_scheduled()`
and `patroni.postgresql.role`. -/
def do_GET_status_code (path : String) (response : JDict)
    (restart_scheduled : Bool) (pg_role : String) : Nat :=
  if role_matches response (path_alias path) then 200
  else if restart_scheduled && (pg_role == "master")
          && str_in "master" (path_alias path) then 200
  else 503

/-! ## Authentication guard -/

/-- The base64 alphabet. -/
def b64alphabet : List Char :=
  "ABCDEFGHIJKLMNOPQRSTUVWXYZabcdefghijklmnopqrstuvwxyz0123456789+/".data

def b64char (n : Nat) : Char := b64alphabet.getD n 'A'

/-- Standard base64 of a byte sequence (`base64.b64encode`), three input
bytes per four output characters, `=`-padded. -/
def b64chunks : List Nat → String
  | [] => ""
  | [a] => String.mk [b64char (a / 4), b64char (a % 4 * 16), '=', '=']
  | [a, b] => String.mk [b64char (a / 4), b64char (a % 4 * 16 + b / 16),
                         b64char (b % 16 * 4), '=']
  | a :: b :: c :: rest =>
      String.mk [b64char (a / 4), b64char (a % 4 * 16 + b / 16),
                 b64char (b % 16 * 4 + c / 64), b64char (c % 64)]
        ++ b64chunks rest

/-- UTF-8 bytes of one code point (`str.encode('utf-8')`, per character). -/
def utf8bytes (n : Nat) : List Nat :=
  if n < 128 then [n]
  else if n < 2048 then [192 + n / 64, 128 + n % 64]
  else if n < 65536 then [224 + n / 4096, 128 + n / 64 % 64, 128 + n % 64]
  else [240 + n / 262144, 128 + n / 4096 % 64, 128 + n / 64 % 64, 128 + n % 64]

/-- Python `s.encode('utf-8')` as a byte list. -/
def py_encode_utf8 (s : String) : List Nat :=
  (s.data.map (fun c => utf8bytes c.toNat)).flatten

/-- `base64.b64encode(s.encode('utf-8')).decode('utf-8')`. -/
def b64encode (s : String) : String := b64chunks (py_encode_utf8 s)

/-- `RestApiServer.__init__`: `self._auth_key = base64.b64encode(
config['auth'].encode('utf-8')).decode('utf-8') if 'auth' in config else
None`.  The argument is the optional `auth` entry of the config. -/
def mk_auth_key (config_auth : Option String) : Option String :=
  config_auth.map b64encode

/-- Python truthiness of an optional string: `None` and `''` are falsy. -/
def py_truthy : Option String → Bool
  | none => false
  | some s => !s.data.isEmpty

/-- `RestApiServer.check_basic_auth_key`: `self._auth_key == key`
(in Python, `None == key` is `False`). -/
def check_basic_auth_key (auth_key : Option String) (key : String) : Bool :=
  match auth_key with
  | some k => k == key
  | none => false

/-- `RestApiServer.check_auth_header`: a returned string is the challenge
reason, `none` is the implicit `None` (authentication passed / disabled). -/
def check_auth_header (auth_key : Option String) (header : Option String) :
    Option String :=
  if py_truthy auth_key then
    match header with
    | none => some "no auth header received"
    | some h =>
        if !py_startswith h "Basic " || !check_basic_auth_key auth_key (py_drop h 6)
        then some "not authenticated"
        else none
  else none

/-! ## Control handlers (`do_POST_restart`, `do_POST_reinitialize`) -/

/-- An HTTP response as assembled by a handler: `send_response` status,
`send_header` lines, `wfile.write` body. -/
structure HttpResponse where
  status : Nat
  headers : List (String × String)
  body : String
deriving DecidableEq

/-- `RestApiHandler.send_auth_request`: 401 with a Basic challenge. -/
def send_auth_request (body : String) : HttpResponse :=
  { status := 401
  , headers := [("WWW-Authenticate", "Basic realm=\"Patroni\""),
                ("Content-type", "text/html")]
  , body := body }

/-- A `text/html` response as sent by the two POST handlers. -/
def html_resp (status : Nat) (body : String) : HttpResponse :=
  { status := status, headers := [("Content-Type", "text/html")], body := body }

/-- The orchestrator calls a handler can make on `patroni.ha`. -/
inductive HaCall where
  | scheduleRestart
  | restart
  | getCluster
  | scheduleReinit
deriving DecidableEq

/-- Pure oracle for the external orchestrator (`patroni.ha`), the cluster
view it returns, and the local node attributes the handlers read.
`restart_result` is `Except.error ()` when `ha.restart()` raises. -/
structure HaModel where
  schedule_restart : Option String
  restart_result : Except Unit Bool
  schedule_reinit : Option String
  cluster_is_unlocked : Bool
  leader_name : String
  node_name : String
  restart_scheduled : Bool

/-- Body of `RestApiHandler.do_POST_restart` (inside the auth guard):
the response and the trace of orchestrator calls made. -/
def do_POST_restart_body (ha : HaModel) : HttpResponse × List HaCall :=
  match ha.schedule_restart with
  | some action =>
      (html_resp 503 (action ++ " already in progress"), [HaCall.scheduleRestart])
  | none =>
      match ha.restart_result with
      | Except.ok true =>
          (html_resp 200 "restarted successfully",
           [HaCall.scheduleRestart, HaCall.restart])
      | Except.ok false =>
          (html_resp 503 "restart failed", [HaCall.scheduleRestart, HaCall.restart])
      | Except.error _ =>
          (html_resp 503 "restart failed", [HaCall.scheduleRestart, HaCall.restart])

/-- Body of `RestApiHandler.do_POST_reinitialize` (inside the auth guard). -/
def do_POST_reinit_body (ha : HaModel) : HttpResponse × List HaCall :=
  if ha.cluster_is_unlocked then
    (html_resp 503 "Cluster has no leader, can not reinitialize", [HaCall.getCluster])
  else if ha.leader_name = ha.node_name then
    (html_resp 503 "I am the leader, can not reinitialize", [HaCall.getCluster])
  else
    match ha.schedule_reinit with
    | some action =>
        (html_resp 503 (action ++ " already in progress"),
         [HaCall.getCluster, HaCall.scheduleReinit])
    | none =>
        (html_resp 200 "reinitialize scheduled",
         [HaCall.getCluster, HaCall.scheduleReinit])

/-- The `check_auth` decorator composed with
`RestApiHandler.check_auth_header`: when the server guard returns a
challenge reason, `send_auth_request` answers and the wrapped handler
body never runs (no orchestrator calls); otherwise the body runs. -/
def with_check_auth (auth_key header : Option String)
    (body : HttpResponse × List HaCall) : HttpResponse × List HaCall :=
  match check_auth_header auth_key header with
  | none => body
  | some msg => (send_auth_request msg, [])

/-- `POST /restart` end to end: auth guard, then the handler body. -/
def do_POST_restart (auth_key header : Option String) (ha : HaModel) :
    HttpResponse × List HaCall :=
  with_check_auth auth_key header (do_POST_restart_body ha)

/-- `POST /reinitialize` end to end: auth guard, then the handler body. -/
def do_POST_reinit (auth_key header : Option String) (ha : HaModel) :
    HttpResponse × List HaCall :=
  with_check_auth auth_key header (do_POST_reinit_body ha)

/-! ## Request router (`RestApiHandler.parse_request`) -/

/-- `self.path.lstrip('/').split('/')[0]`: drop leading slashes, then
take characters up to the next slash. -/
def first_segment (path : String) : String :=
  String.mk ((path.data.dropWhile (fun c => c = '/')).takeWhile (fun c => c ≠ '/'))

/-- `mname = self.command + ('_' + mname if mname else '')`. -/
def dispatch_key (command path : String) : String :=
  let m := first_segment path
  if m = "" then command else command ++ "_" ++ m

/-- The `do_`-prefixed attributes of `RestApiHandler` (none are inherited
from `BaseHTTPRequestHandler`): the targets `hasattr(self, 'do_' + mname)`
can find. -/
def handler_attrs : List String :=
  ["do_GET", "do_GET_patroni", "do_POST_restart", "do_POST_reinitialize"]

/-- `parse_request`: rewrite `self.command` to the dispatch key when a
matching `do_` method exists, else leave the plain method name (the base
class then invokes `do_<command>` — the method's default handler). -/
def parse_request_command (command path : String) : String :=
  let m := dispatch_key command path
  if handler_attrs.contains ("do_" ++ m) then m else command

/-! ## Query primitive (`RestApiServer.query`) -/

/-- Outcome of the `with connection().cursor()` block in
`RestApiServer.query`: rows fetched; a `psycopg2.Error` raised before a
cursor existed; or a `psycopg2.Error` raised with a cursor in hand, with
the driver's `connection.closed` counter (`0` = open). -/
inductive DBOutcome where
  | rows (rs : List QueryRow)
  | errNoCursor (e : Nat)
  | errWithCursor (e : Nat) (closed : Nat)
deriving DecidableEq

/-- `RestApiServer.query`: materializes the rows, and reclassifies
`psycopg2.Error`: re-raised unchanged when a cursor exists and its
connection is still open (`closed == 0`), else replaced by
`PostgresConnectionException('connection problems')`. -/
def server_query : DBOutcome → Except QueryError (List QueryRow)
  | DBOutcome.rows rs => Except.ok rs
  | DBOutcome.errNoCursor _ => Except.error QueryError.connection
  | DBOutcome.errWithCursor e closed =>
      if closed = 0 then Except.error (QueryError.pg e)
      else Except.error QueryError.connection

/-! ## Helper lemmas -/

lemma jlookup_role_ok (state : String) (row : QueryRow) :
    jlookup "role" (get_postgresql_status state (Except.ok row)) =
      some (JValue.s (if row.in_recovery then "replica" else "master")) := by
  simp [get_postgresql_status, jlookup]

lemma jlookup_xlog_ok (state : String) (row : QueryRow) :
    jlookup "xlog" (get_postgresql_status state (Except.ok row)) =
      some (JValue.obj
        (if row.in_recovery then
          [("received_location", match row.received_location with
              | some v => JValue.s v
              | none => JValue.null),
           ("replayed_location", match row.replayed_location with
              | some v => JValue.s v
              | none => JValue.null),
           ("paused", JValue.b row.paused)]
        else
          [("location", match row.current_location with
              | some v => JValue.s v
              | none => JValue.null)])) := by
  simp [get_postgresql_status, jlookup]

lemma role_matches_iff (response : JDict) (p : String) :
    role_matches response p = true ↔
      ∃ r, jlookup "role" response = some (JValue.s r) ∧ str_in r p = true := by
  unfold role_matches
  cases h : jlookup "role" response with
  | none => simp
  | some v => cases v <;> simp

lemma string_mk_ne_empty (c : Char) (cs : List Char) : String.mk (c :: cs) ≠ "" := by
  intro h
  have hd := congrArg String.data h
  simp at hd

lemma string_data_ne_nil (s : String) (h : s ≠ "") : s.data ≠ [] := by
  intro hd
  apply h
  cases s with
  | mk l =>
      simp at hd
      simp [hd]

lemma utf8bytes_ne_nil (n : Nat) : utf8bytes n ≠ [] := by
  unfold utf8bytes
  split
  · simp
  · split
    · simp
    · split <;> simp

lemma py_encode_utf8_ne_nil (s : String) (h : s ≠ "") : py_encode_utf8 s ≠ [] := by
  unfold py_encode_utf8
  cases hl : s.data with
  | nil => exact absurd hl (string_data_ne_nil s h)
  | cons c rest =>
      simp
      exact fun heq => absurd heq (utf8bytes_ne_nil c.toNat)

lemma b64chunks_ne_empty (l : List Nat) (h : l ≠ []) : b64chunks l ≠ "" := by
  match l with
  | [] => exact absurd rfl h
  | [a] => exact string_mk_ne_empty _ _
  | [a, b] => exact string_mk_ne_empty _ _
  | a :: b :: c :: rest =>
      intro heq
      have hd := congrArg String.data heq
      simp [b64chunks] at hd

lemma b64encode_ne_empty (s : String) (h : s ≠ "") : b64encode s ≠ "" :=
  b64chunks_ne_empty _ (py_encode_utf8_ne_nil s h)

lemma py_truthy_mk_auth_key (s : String) (h : s ≠ "") :
    py_truthy (mk_auth_key (some s)) = true := by
  simp [py_truthy, mk_auth_key]
  exact string_data_ne_nil _ (b64encode_ne_empty s h)

/-! ## Claim theorems -/

/-- C2: for every successful diagnostic query, the status record has role
`replica` when the in-recovery flag is true and `master` otherwise, and
its `xlog` object carries exactly the keys
`received_location, replayed_location, paused` in the replica case and
exactly the key `location` in the master case — never both shapes, never
neither, never a mixed set. -/
theorem status_role_and_xlog_shape (state : String) (row : QueryRow) :
    ∃ x, jlookup "xlog" (get_postgresql_status state (Except.ok row)) =
            some (JValue.obj x)
      ∧ (row.in_recovery = true →
          jlookup "role" (get_postgresql_status state (Except.ok row)) =
              some (JValue.s "replica")
          ∧ jkeys x = ["received_location", "replayed_location", "paused"])
      ∧ (row.in_recovery = false →
          jlookup "role" (get_postgresql_status state (Except.ok row)) =
              some (JValue.s "master")
          ∧ jkeys x = ["location"])
      ∧ (jkeys x = ["received_location", "replayed_location", "paused"]
          ∨ jkeys x = ["location"])
      ∧ ¬(jkeys x = ["received_location", "replayed_location", "paused"]
          ∧ jkeys x = ["location"]) := by
  refine ⟨_, jlookup_xlog_ok state row, ?_, ?_, ?_, ?_⟩ <;>
    cases h : row.in_recovery <;>
      simp [jlookup_role_ok, h, jkeys]

/-- C2 witness: both branches of the case analysis at concrete rows. -/
theorem status_role_and_xlog_shape_witness :
    (jlookup "role" (get_postgresql_status "running"
        (Except.ok ⟨"t0", true, none, some "0/A", some "0/B", false⟩)) =
      some (JValue.s "replica"))
    ∧ (jlookup "role" (get_postgresql_status "running"
        (Except.ok ⟨"t0", false, some "0/C", none, none, false⟩)) =
      some (JValue.s "master")) := by
  constructor
  · exact ((status_role_and_xlog_shape "running"
      ⟨"t0", true, none, some "0/A", some "0/B", false⟩).choose_spec.2.1 rfl).1
  · exact ((status_role_and_xlog_shape "running"
      ⟨"t0", false, some "0/C", none, none, false⟩).choose_spec.2.2.1 rfl).1

/-- C3: whenever the diagnostic query raises any of the caught error
kinds (`psycopg2.Error`, retry exhaustion, connection exception),
`get_postgresql_status` returns a record whose only key is `state`,
holding the local node's lifecycle state, and propagates nothing (it is a
total function into `JDict`). -/
theorem status_on_error_state_only (state : String) (e : QueryError) :
    get_postgresql_status state (Except.error e) = [("state", JValue.s state)]
    ∧ jkeys (get_postgresql_status state (Except.error e)) = ["state"]
    ∧ jlookup "state" (get_postgresql_status state (Except.error e)) =
        some (JValue.s state) := by
  cases e <;> simp [get_postgresql_status, jkeys, jlookup]

/-- C9: the query primitive reclassifies every caught data-source error:
with no cursor, or with the connection already closed, it raises the
retryable connection-unavailable exception; with a live cursor and an open
connection it re-raises the original error unchanged — and the two
results are distinguishable. -/
theorem server_query_reclassifies (e closed : Nat) :
    (server_query (DBOutcome.errNoCursor e) = Except.error QueryError.connection)
    ∧ (closed ≠ 0 →
        server_query (DBOutcome.errWithCursor e closed) =
          Except.error QueryError.connection)
    ∧ (closed = 0 →
        server_query (DBOutcome.errWithCursor e closed) =
          Except.error (QueryError.pg e))
    ∧ (∀ rs, server_query (DBOutcome.rows rs) = Except.ok rs)
    ∧ QueryError.pg e ≠ QueryError.connection := by
  refine ⟨rfl, ?_, ?_, fun _ => rfl, by simp⟩
  · intro h; simp [server_query, h]
  · intro h; simp [server_query, h]

/-- C9 witness: the reclassification at a concrete error id with a closed
and with an open connection. -/
theorem server_query_reclassifies_witness :
    (server_query (DBOutcome.errWithCursor 7 1) =
      Except.error QueryError.connection)
    ∧ (server_query (DBOutcome.errWithCursor 7 0) =
      Except.error (QueryError.pg 7)) :=
  ⟨(server_query_reclassifies 7 1).2.1 (by decide),
   (server_query_reclassifies 7 0).2.2.1 rfl⟩

/-- C10: a configured auth secret equal to the empty string is stored as
the empty-string key, and the guard then behaves exactly as with no
configured secret: every header value (including an absent one) passes. -/
theorem empty_secret_disables_auth :
    mk_auth_key (some "") = some ""
    ∧ (∀ header, check_auth_header (mk_auth_key (some "")) header = none)
    ∧ (∀ header, check_auth_header (mk_auth_key none) header = none) := by
  refine ⟨rfl, fun header => ?_, fun header => ?_⟩ <;>
    cases header <;> rfl

/-- C4 counterexample: with the configured secret equal to the empty
string a secret IS configured (`'auth' in config`), the stored key is
`some ""`, yet with the header absent the guard returns `none` (Ok), not
`Challenge("no auth header received")` as the claim states. -/
theorem check_auth_header_empty_secret_cex :
    mk_auth_key (some "") = some ""
    ∧ mk_auth_key (some "") ≠ none
    ∧ check_auth_header (mk_auth_key (some "")) none = none
    ∧ check_auth_header (mk_auth_key (some "")) none ≠
        some "no auth header received" := by
  refine ⟨rfl, by simp [mk_auth_key], rfl, by decide⟩

/-- C4 (amended): if no secret is configured, or the configured secret is
the empty string, the guard returns Ok for every header; if a non-empty
secret is configured: an absent header yields
`Challenge("no auth header received")`; a present header that does not
begin with `"Basic "` or whose credential part differs from the encoded
key yields `Challenge("not authenticated")`; otherwise Ok. -/
theorem check_auth_header_cases :
    (∀ header, check_auth_header (mk_auth_key none) header = none)
    ∧ (∀ header, check_auth_header (mk_auth_key (some "")) header = none)
    ∧ (∀ s, s ≠ "" →
        (check_auth_header (mk_auth_key (some s)) none =
            some "no auth header received")
        ∧ (∀ h, py_startswith h "Basic " = false ∨ py_drop h 6 ≠ b64encode s →
            check_auth_header (mk_auth_key (some s)) (some h) =
              some "not authenticated")
        ∧ (∀ h, py_startswith h "Basic " = true → py_drop h 6 = b64encode s →
            check_auth_header (mk_auth_key (some s)) (some h) = none)) := by
  refine ⟨fun header => by cases header <;> rfl,
          fun header => by cases header <;> rfl,
          fun s hs => ?_⟩
  have ht := py_truthy_mk_auth_key s hs
  refine ⟨by simp [check_auth_header, ht], fun h hcase => ?_, fun h h1 h2 => ?_⟩
  · simp only [check_auth_header, ht, if_true]
    rcases hcase with hp | hk
    · simp [hp]
    · simp [check_basic_auth_key, mk_auth_key]
      intro
      exact fun heq => absurd heq.symm hk
  · simp [check_auth_header, ht, h1, check_basic_auth_key, mk_auth_key, h2]

/-- C4 witness: the amended case analysis applied with the non-empty
secret `"admin"`: absent header challenged, wrong credential challenged,
exact credential accepted. -/
theorem check_auth_header_cases_witness :
    (check_auth_header (mk_auth_key (some "admin")) none =
        some "no auth header received")
    ∧ (check_auth_header (mk_auth_key (some "admin")) (some "Digest x") =
        some "not authenticated")
    ∧ (check_auth_header (mk_auth_key (some "admin")) (some "Basic YWRtaW4=") =
        none) :=
  ⟨(check_auth_header_cases.2.2 "admin" (by decide)).1,
   (check_auth_header_cases.2.2 "admin" (by decide)).2.1 "Digest x"
      (Or.inl (by decide)),
   (check_auth_header_cases.2.2 "admin" (by decide)).2.2 "Basic YWRtaW4="
      (by decide) (by decide)⟩

/-- C5: whenever the auth guard yields a challenge, both guarded POST
handlers make zero orchestrator calls and answer 401 with the
`WWW-Authenticate: Basic realm="Patroni"` header and the challenge reason
as body. -/
theorem auth_challenge_blocks_handlers
    (auth_key header : Option String) (ha : HaModel) (msg : String)
    (h : check_auth_header auth_key header = some msg) :
    (do_POST_restart auth_key header ha).2 = []
    ∧ (do_POST_reinit auth_key header ha).2 = []
    ∧ (do_POST_restart auth_key header ha).1.status = 401
    ∧ (do_POST_reinit auth_key header ha).1.status = 401
    ∧ ("WWW-Authenticate", "Basic realm=\"Patroni\"")
        ∈ (do_POST_restart auth_key header ha).1.headers
    ∧ ("WWW-Authenticate", "Basic realm=\"Patroni\"")
        ∈ (do_POST_reinit auth_key header ha).1.headers
    ∧ (do_POST_restart auth_key header ha).1.body = msg
    ∧ (do_POST_reinit auth_key header ha).1.body = msg := by
  unfold do_POST_restart do_POST_reinit with_check_auth
  simp [h, send_auth_request]

/-- C5 witness: a missing header against a configured non-empty key
blocks `POST /restart` (no orchestrator calls, 401, reason as body). -/
theorem auth_challenge_blocks_handlers_witness :
    (do_POST_restart (some "eA==") none
        ⟨none, Except.ok true, none, true, "a", "b", false⟩).2 = []
    ∧ (do_POST_restart (some "eA==") none
        ⟨none, Except.ok true, none, true, "a", "b", false⟩).1.status = 401 :=
  ⟨(auth_challenge_blocks_handlers (some "eA==") none
      ⟨none, Except.ok true, none, true, "a", "b", false⟩
      "no auth header received" (by decide)).1,
   (auth_challenge_blocks_handlers (some "eA==") none
      ⟨none, Except.ok true, none, true, "a", "b", false⟩
      "no auth header received" (by decide)).2.2.1⟩

/-- C6: `POST /reinitialize` branch analysis: unlocked cluster → 503
no-leader message and `scheduleReinit` never called; this node is
leader → 503 and no call; otherwise exactly one `scheduleReinit`
call, a pending action name → 503 naming it, a `none` return → 200, and
these outcomes are mutually exclusive and exhaustive (200 iff `none`). -/
theorem reinitialize_branch_analysis (ha : HaModel) :
    (ha.cluster_is_unlocked = true →
      (do_POST_reinit_body ha).1 =
          html_resp 503 "Cluster has no leader, can not reinitialize"
      ∧ HaCall.scheduleReinit ∉ (do_POST_reinit_body ha).2)
    ∧ (ha.cluster_is_unlocked = false → ha.leader_name = ha.node_name →
      (do_POST_reinit_body ha).1 =
          html_resp 503 "I am the leader, can not reinitialize"
      ∧ HaCall.scheduleReinit ∉ (do_POST_reinit_body ha).2)
    ∧ (ha.cluster_is_unlocked = false → ha.leader_name ≠ ha.node_name →
      ((do_POST_reinit_body ha).2.count HaCall.scheduleReinit = 1)
      ∧ (∀ a, ha.schedule_reinit = some a →
          (do_POST_reinit_body ha).1 =
            html_resp 503 (a ++ " already in progress"))
      ∧ (ha.schedule_reinit = none →
          (do_POST_reinit_body ha).1 =
            html_resp 200 "reinitialize scheduled")
      ∧ ((do_POST_reinit_body ha).1.status = 200 ↔
          ha.schedule_reinit = none)) := by
  refine ⟨fun h1 => ?_, fun h1 h2 => ?_, fun h1 h2 => ?_⟩
  · simp [do_POST_reinit_body, h1]
  · simp [do_POST_reinit_body, h1, h2]
  · cases ha3 : ha.schedule_reinit <;>
      simp [do_POST_reinit_body, h1, h2, ha3, html_resp, List.count_cons]

/-- C6 witness: third branch with nothing pending at a concrete model:
schedules once and answers 200. -/
theorem reinitialize_branch_analysis_witness :
    (do_POST_reinit_body
        ⟨none, Except.ok true, none, false, "leader1", "node2", false⟩).1 =
      html_resp 200 "reinitialize scheduled" :=
  (reinitialize_branch_analysis
      ⟨none, Except.ok true, none, false, "leader1", "node2", false⟩).2.2
    rfl (by decide) |>.2.2.1 rfl

/-- C7: `POST /restart` branch analysis: a pending action name → 503 with
`<action> already in progress` and `restart` never attempted; otherwise
`restart` is attempted exactly once — `true` → 200 success message,
`false` or an exception (caught, never propagated: the handler is total)
→ 503 `restart failed`; 200 happens exactly on `true`. -/
theorem restart_branch_analysis (ha : HaModel) :
    (∀ a, ha.schedule_restart = some a →
      (do_POST_restart_body ha).1 = html_resp 503 (a ++ " already in progress")
      ∧ HaCall.restart ∉ (do_POST_restart_body ha).2)
    ∧ (ha.schedule_restart = none →
      ((do_POST_restart_body ha).2.count HaCall.restart = 1)
      ∧ (ha.restart_result = Except.ok true →
          (do_POST_restart_body ha).1 = html_resp 200 "restarted successfully")
      ∧ (ha.restart_result = Except.ok false →
          (do_POST_restart_body ha).1 = html_resp 503 "restart failed")
      ∧ (∀ u, ha.restart_result = Except.error u →
          (do_POST_restart_body ha).1 = html_resp 503 "restart failed")
      ∧ ((do_POST_restart_body ha).1.status = 200 ↔
          ha.restart_result = Except.ok true)) := by
  refine ⟨fun a h1 => ?_, fun h1 => ?_⟩
  · simp [do_POST_restart_body, h1]
  · rcases h2 : ha.restart_result with u | b
    · simp [do_POST_restart_body, h1, h2, html_resp, List.count_cons]
    · cases b <;>
        simp [do_POST_restart_body, h1, h2, html_resp, List.count_cons]

/-- C7 witness: nothing pending and a successful restart at a concrete
model: exactly one attempt and a 200 success response. -/
theorem restart_branch_analysis_witness :
    ((do_POST_restart_body
        ⟨none, Except.ok true, none, false, "l", "n", false⟩).2.count
          HaCall.restart = 1)
    ∧ (do_POST_restart_body
        ⟨none, Except.ok true, none, false, "l", "n", false⟩).1 =
      html_resp 200 "restarted successfully" :=
  ⟨((restart_branch_analysis
      ⟨none, Except.ok true, none, false, "l", "n", false⟩).2 rfl).1,
   ((restart_branch_analysis
      ⟨none, Except.ok true, none, false, "l", "n", false⟩).2 rfl).2.1 rfl⟩

/-- C1: the default GET status handler answers 200 exactly when the
aggregated record has a `role` whose name is a substring of the
(`/`-aliased) path, or a restart is scheduled on a local `master` node
and `"master"` is a substring of the path; every other case is 503.  In
particular `GET /replica` answers 200 iff the computed role is
`replica` (iff the diagnostic row is in recovery). -/
theorem do_GET_status_classification :
    (∀ path response rs pg_role,
      (do_GET_status_code path response rs pg_role = 200 ↔
        ((∃ r, jlookup "role" response = some (JValue.s r)
            ∧ str_in r (path_alias path) = true)
         ∨ (rs = true ∧ pg_role = "master"
            ∧ str_in "master" (path_alias path) = true)))
      ∧ (do_GET_status_code path response rs pg_role ≠ 200 →
          do_GET_status_code path response rs pg_role = 503))
    ∧ (∀ state row rs pg_role,
        do_GET_status_code "/replica"
            (get_postgresql_status state (Except.ok row)) rs pg_role = 200 ↔
          row.in_recovery = true) := by
  constructor
  · intro path response rs pg_role
    constructor
    · rw [← role_matches_iff]
      unfold do_GET_status_code
      cases h1 : role_matches response (path_alias path) <;>
        cases h2 : (rs && (pg_role == "master")
          && str_in "master" (path_alias path))
      · constructor
        · intro hc; exact absurd hc (by decide)
        · rintro (hr | ⟨hrs, hrole, hm⟩)
          · exact absurd hr (by decide)
          · rw [hrs, hrole, hm] at h2
            exact absurd h2 (by decide)
      · simp only [Bool.and_eq_true, beq_iff_eq] at h2
        exact iff_of_true (by decide) (Or.inr ⟨h2.1.1, h2.1.2, h2.2⟩)
      · exact iff_of_true (by decide) (Or.inl rfl)
      · exact iff_of_true (by decide) (Or.inl rfl)
    · have h200 : do_GET_status_code path response rs pg_role = 200 ∨
          do_GET_status_code path response rs pg_role = 503 := by
        unfold do_GET_status_code
        split
        · exact Or.inl rfl
        · split
          · exact Or.inl rfl
          · exact Or.inr rfl
      intro hne
      exact h200.resolve_left hne
  · intro state row rs pg_role
    have hrole := jlookup_role_ok state row
    cases h : row.in_recovery
    · rw [h] at hrole
      simp at hrole
      unfold do_GET_status_code role_matches
      rw [show path_alias "/replica" = "/replica" from by decide, hrole]
      simp [h, show str_in "master" "/replica" = false from by decide]
    · rw [h] at hrole
      simp at hrole
      unfold do_GET_status_code role_matches
      rw [show path_alias "/replica" = "/replica" from by decide, hrole]
      simp [h, show str_in "replica" "/replica" = true from by decide]

/-- C1 witness: `GET /replica` on an in-recovery row answers 200; the
general classification at a concrete mismatching input answers 503. -/
theorem do_GET_status_classification_witness :
    do_GET_status_code "/replica"
        (get_postgresql_status "running"
          (Except.ok ⟨"t0", true, none, some "0/A", some "0/B", false⟩))
        false "replica" = 200
    ∧ do_GET_status_code "/master"
        (get_postgresql_status "running"
          (Except.ok ⟨"t0", true, none, some "0/A", some "0/B", false⟩))
        false "replica" = 503 :=
  ⟨(do_GET_status_classification.2 "running"
      ⟨"t0", true, none, some "0/A", some "0/B", false⟩ false "replica").mpr rfl,
   (do_GET_status_classification.1 "/master"
      (get_postgresql_status "running"
        (Except.ok ⟨"t0", true, none, some "0/A", some "0/B", false⟩))
      false "replica").2 (by decide)⟩

/-- C8: the router builds the dispatch key as the method, extended by
`_` and the first non-empty path segment; it rewrites the command to the
key exactly when a matching `do_` handler attribute exists, and otherwise
leaves the method's default handler in charge — and for GET the default
handler treats `/` exactly like `/master`. -/
theorem router_dispatch (command path : String) :
    (first_segment path = "" → dispatch_key command path = command)
    ∧ (first_segment path ≠ "" →
        dispatch_key command path = command ++ "_" ++ first_segment path)
    ∧ (handler_attrs.contains ("do_" ++ dispatch_key command path) = true →
        parse_request_command command path = dispatch_key command path)
    ∧ (handler_attrs.contains ("do_" ++ dispatch_key command path) = false →
        parse_request_command command path = command)
    ∧ (∀ response rs pg_role,
        do_GET_status_code "/" response rs pg_role =
          do_GET_status_code "/master" response rs pg_role) := by
  refine ⟨fun h => ?_, fun h => ?_, fun h => ?_, fun h => ?_,
          fun response rs pg_role => ?_⟩
  · simp [dispatch_key, h]
  · simp [dispatch_key, h]
  · unfold parse_request_command
    rw [if_pos h]
  · unfold parse_request_command
    rw [if_neg (by simpa using h)]
  · have : path_alias "/" = path_alias "/master" := by decide
    unfold do_GET_status_code
    rw [this]

/-- C8 witness: registered keys are taken (`GET /patroni`,
`POST /restart`), unregistered ones fall back to the method default
(`GET /replica` stays `GET`). -/
theorem router_dispatch_witness :
    parse_request_command "GET" "/patroni" = dispatch_key "GET" "/patroni"
    ∧ parse_request_command "POST" "/restart" = dispatch_key "POST" "/restart"
    ∧ parse_request_command "GET" "/replica" = "GET"
    ∧ dispatch_key "GET" "/patroni" = "GET" ++ "_" ++ first_segment "/patroni" :=
  ⟨(router_dispatch "GET" "/patroni").2.2.1 (by decide),
   (router_dispatch "POST" "/restart").2.2.1 (by decide),
   (router_dispatch "GET" "/replica").2.2.2.1 (by decide),
   (router_dispatch "GET" "/patroni").2.1 (by decide)⟩

end PatroniApi
